import Mathlib

/-!
Verification of the Smart Bin IoT system: a shallow embedding of the
backend message handlers (`backend/src/mqttClient.js`), the record store
layer (`backend/src/db.js`), the configuration route
(`backend/src/routes.js`), and the device firmware state machine
(`esp32/smart_bin_firmware.ino`), together with theorems settling the
stated properties of the system.

Conventions of the embedding:
* JavaScript / C++ numbers appearing in these code paths are integers
  (the device publishes integer levels and distances), modelled as `Int`.
* Wall-clock instants (`Date.now`, SQL `NOW()`, Arduino `millis()`) are
  modelled as a `Nat` parameter `now` threaded explicitly.
* `Date.toISOString()` is modelled as an injective rendering of the clock.
* Database effects are modelled on an explicit store state `DBState`;
  MQTT publishes are collected in an output list of `OutMsg`.
-/

namespace SmartBin

/-- JSON values, as produced by `JSON.parse`. -/
inductive Json where
  | null : Json
  | bool (b : Bool) : Json
  | num (n : Int) : Json
  | str (s : String) : Json
  | arr (elems : List Json) : Json
  | obj (fields : List (String × Json)) : Json
deriving Repr, BEq, Inhabited

/-- Field lookup on a JSON object (JavaScript property access after
`JSON.parse`; with duplicate keys the last occurrence wins, as in
`JSON.parse`). Non-objects have no fields. -/
def Json.getField : Json → String → Option Json
  | .obj kvs, k => ((kvs.reverse).find? (fun kv => kv.1 = k)).map (fun kv => kv.2)
  | _, _ => none

/-- JavaScript truthiness of a defined value (`undefined` is handled at
the `Option` level by the callers). -/
def Json.truthy : Json → Bool
  | .null => false
  | .bool b => b
  | .num n => n ≠ 0
  | .str s => s ≠ ""
  | .arr _ => true
  | .obj _ => true

/-- JavaScript string coercion of a value, as used in template literals
and query parameters. -/
def Json.display : Json → String
  | .null => "null"
  | .bool b => if b then "true" else "false"
  | .num n => toString n
  | .str s => s
  | .arr _ => ""
  | .obj _ => "[object Object]"

/-! ### A model of `JSON.parse`

The parser below covers the grammar actually exchanged by this system:
objects of string / integer / boolean / null fields, arrays, strings
without escape sequences, and integer numerals.  (Fractional and
exponent numerals and string escapes do not occur in any payload this
development evaluates; on its domain the parser agrees with RFC 8259.)
A bare word other than `true` / `false` / `null` — in particular the
presence tokens `online` and `offline` — is not valid JSON and is
rejected, exactly as `JSON.parse` throws on it. -/

/-- Skip JSON insignificant whitespace. -/
def skipWs (cs : List Char) : List Char :=
  cs.dropWhile (fun c => c = ' ' ∨ c = '\n' ∨ c = '\t' ∨ c = '\r')

/-- Parse a string literal body (after the opening quote), up to the
closing quote. -/
def parseStringBody : List Char → Option (String × List Char)
  | [] => none
  | c :: rest =>
    if c = '"' then some ("", rest)
    else match parseStringBody rest with
      | some (s, rest') => some (String.mk (c :: s.data), rest')
      | none => none

/-- Numeric value of a run of decimal digits. -/
def digitsToNat (ds : List Char) : Nat :=
  ds.foldl (fun n c => n * 10 + (c.toNat - '0'.toNat)) 0

/-- Parse a nonempty run of decimal digits. -/
def parseDigits : List Char → Option (Nat × List Char)
  | cs =>
    let ds := cs.takeWhile Char.isDigit
    if ds.isEmpty then none
    else some (digitsToNat ds, cs.dropWhile Char.isDigit)

mutual

/-- Parse one JSON value; `fuel` bounds recursion depth. -/
def parseVal (fuel : Nat) (cs : List Char) : Option (Json × List Char) :=
  match fuel with
  | 0 => none
  | fuel + 1 =>
    match skipWs cs with
    | '{' :: rest => parseObjFields fuel (skipWs rest) true
    | '[' :: rest => parseArrElems fuel (skipWs rest) true
    | '"' :: rest => (parseStringBody rest).map (fun p => (Json.str p.1, p.2))
    | '-' :: rest =>
      (parseDigits rest).map (fun p => (Json.num (-(p.1 : Int)), p.2))
    | 't' :: 'r' :: 'u' :: 'e' :: rest => some (Json.bool true, rest)
    | 'f' :: 'a' :: 'l' :: 's' :: 'e' :: rest => some (Json.bool false, rest)
    | 'n' :: 'u' :: 'l' :: 'l' :: rest => some (Json.null, rest)
    | cs' =>
      match parseDigits cs' with
      | some (n, rest) => some (Json.num (n : Int), rest)
      | none => none

/-- Parse the fields of an object after `{`; `first` is true before the
first field. -/
def parseObjFields (fuel : Nat) (cs : List Char) (first : Bool) :
    Option (Json × List Char) :=
  match fuel with
  | 0 => none
  | fuel + 1 =>
    match skipWs cs with
    | '}' :: rest => if first then some (Json.obj [], rest) else none
    | '"' :: rest =>
      match parseStringBody rest with
      | none => none
      | some (k, rest1) =>
        match skipWs rest1 with
        | ':' :: rest2 =>
          match parseVal fuel rest2 with
          | none => none
          | some (v, rest3) =>
            match skipWs rest3 with
            | ',' :: rest4 =>
              match parseObjFields fuel rest4 false with
              | some (Json.obj kvs, rest5) => some (Json.obj ((k, v) :: kvs), rest5)
              | _ => none
            | '}' :: rest4 => some (Json.obj [(k, v)], rest4)
            | _ => none
        | _ => none
    | _ => none

/-- Parse the elements of an array after `[`; `first` is true before the
first element. -/
def parseArrElems (fuel : Nat) (cs : List Char) (first : Bool) :
    Option (Json × List Char) :=
  match fuel with
  | 0 => none
  | fuel + 1 =>
    match skipWs cs with
    | ']' :: rest => if first then some (Json.arr [], rest) else none
    | cs' =>
      match parseVal fuel cs' with
      | none => none
      | some (v, rest) =>
        match skipWs rest with
        | ',' :: rest1 =>
          match parseArrElems fuel rest1 false with
          | some (Json.arr vs, rest2) => some (Json.arr (v :: vs), rest2)
          | _ => none
        | ']' :: rest1 => some (Json.arr [v], rest1)
        | _ => none

end

/-- Model of `JSON.parse`: parse the whole string; any leftover input or
syntax error yields `none` (the JavaScript call throws). -/
def tryParseJson (s : String) : Option Json :=
  match parseVal (s.length + 1) s.data with
  | some (v, rest) => if (skipWs rest).isEmpty then some v else none
  | none => none

/-! ### Record store model (`backend/schema.sql` tables, `backend/src/db.js` queries) -/

/-- A row of the `users` table (RFID credentials). -/
structure User where
  rfidUid : String
  name : String
  role : String
  isActive : Bool
deriving Repr, DecidableEq

/-- A row of the `bins` table. -/
structure Bin where
  binId : String
  name : String
  location : String
  capacityCm : Int
  mode : String
  thresholdCm : Int
  isOnline : Bool
  lastSeen : Option Nat
  currentLevelPercent : Int
  currentDistanceCm : Int
  updatedAt : Nat
deriving Repr, DecidableEq

/-- A row of the append-only `logs` table. -/
structure LogEntry where
  binId : String
  eventType : String
  rfidUid : Option String
  userName : Option String
  levelPercent : Option Int
  distanceCm : Option Int
  success : Bool
  message : Option String
  timestamp : Nat
deriving Repr, DecidableEq

/-- The state of the MySQL store. -/
structure DBState where
  bins : List Bin
  users : List User
  logs : List LogEntry
deriving Repr, DecidableEq

/-- The optional data argument of `db.logEvent`, with the JavaScript
destructuring defaults. -/
structure LogData where
  rfidUid : Option String := none
  userName : Option String := none
  levelPercent : Option Int := none
  distanceCm : Option Int := none
  success : Bool := true
  message : Option String := none
deriving Repr, DecidableEq

/-- `db.getUserByRFID`: `SELECT * FROM users WHERE rfid_uid = ? AND
is_active = TRUE`, returning the first row or null. -/
def getUserByRFID (rfidUid : String) (db : DBState) : Option User :=
  db.users.find? (fun u => u.rfidUid = rfidUid ∧ u.isActive)

/-- `db.getBinById`: `SELECT * FROM bins WHERE bin_id = ?`, returning
the first row or null. -/
def getBinById (binId : String) (db : DBState) : Option Bin :=
  db.bins.find? (fun b => b.binId = binId)

/-- `db.updateBinStatus`: `UPDATE bins SET is_online = ?, last_seen =
NOW() WHERE bin_id = ?`. -/
def updateBinStatus (binId : String) (isOnline : Bool) (now : Nat)
    (db : DBState) : DBState :=
  { db with bins := db.bins.map (fun b =>
      if b.binId = binId then
        { b with isOnline := isOnline, lastSeen := some now }
      else b) }

/-- `db.updateBinLevel`: `UPDATE bins SET current_level_percent = ?,
current_distance_cm = ?, last_seen = NOW() WHERE bin_id = ?`. -/
def updateBinLevel (binId : String) (levelPercent distanceCm : Int)
    (now : Nat) (db : DBState) : DBState :=
  { db with bins := db.bins.map (fun b =>
      if b.binId = binId then
        { b with currentLevelPercent := levelPercent,
                 currentDistanceCm := distanceCm,
                 lastSeen := some now }
      else b) }

/-- `db.logEvent`: `INSERT INTO logs (...) VALUES (...)` — appends one
row built from the data argument. -/
def logEvent (binId eventType : String) (data : LogData) (now : Nat)
    (db : DBState) : DBState :=
  { db with logs := db.logs ++
      [{ binId := binId, eventType := eventType, rfidUid := data.rfidUid,
         userName := data.userName, levelPercent := data.levelPercent,
         distanceCm := data.distanceCm, success := data.success,
         message := data.message, timestamp := now }] }

/-- A value supplied for one column in a config update. -/
inductive ConfigVal where
  | s (v : String) : ConfigVal
  | i (v : Int) : ConfigVal
deriving Repr, DecidableEq

/-- The allow-list of `db.updateBinConfig`. -/
def allowedFields : List String :=
  ["mode", "threshold_cm", "capacity_cm", "name", "location"]

/-- Apply one `SET key = value` clause to a bin row. -/
def applyUpdate (b : Bin) : String × ConfigVal → Bin
  | ("mode", .s v) => { b with mode := v }
  | ("threshold_cm", .i v) => { b with thresholdCm := v }
  | ("capacity_cm", .i v) => { b with capacityCm := v }
  | ("name", .s v) => { b with name := v }
  | ("location", .s v) => { b with location := v }
  | _ => b

/-- `db.updateBinConfig`: filters the supplied entries by the
allow-list, throws `No valid fields to update` when none survive,
otherwise runs `UPDATE bins SET <clauses>, updated_at = NOW() WHERE
bin_id = ?`. -/
def updateBinConfig (binId : String) (updates : List (String × ConfigVal))
    (now : Nat) (db : DBState) : Except String DBState :=
  let valid := updates.filter (fun kv => allowedFields.contains kv.1)
  if valid.isEmpty then
    .error "No valid fields to update"
  else
    .ok { db with bins := db.bins.map (fun b =>
        if b.binId = binId then
          { valid.foldl applyUpdate b with updatedAt := now }
        else b) }

/-! ### Outbound MQTT messages -/

/-- A published payload: either serialized structured data
(`JSON.stringify`) or a raw byte string such as the presence beacon. -/
inductive Payload where
  | json (j : Json) : Payload
  | raw (s : String) : Payload
deriving Repr, BEq, Inhabited

/-- An outbound MQTT publish. -/
structure OutMsg where
  topic : String
  payload : Payload
  qos : Nat
  retain : Bool
deriving Repr, BEq, Inhabited

/-- Model of `Date.toISOString()`: an injective rendering of the clock. -/
def isoTimestamp (now : Nat) : String := toString now

/-- Split a character list at every occurrence of `sep` (JavaScript
`String.prototype.split` with a one-character separator). -/
def splitOnChar (sep : Char) : List Char → List (List Char)
  | [] => [[]]
  | c :: rest =>
    let r := splitOnChar sep rest
    if c = sep then [] :: r
    else
      match r with
      | t :: ts => (c :: t) :: ts
      | [] => [[c]]

/-- `topic.split('/')`. -/
def splitTopic (topic : String) : List String :=
  (splitOnChar '/' topic.data).map String.mk

/-- The message class of a topic, by the segment switched on throughout
the system (`smartbin/{id}/<class>[/level]`). -/
inductive MsgClass where
  | telemetry | rfidCheck | command | alert | config | status
deriving Repr, DecidableEq

/-- Classify a topic of the `smartbin/{id}/...` hierarchy. -/
def topicClass (topic : String) : Option MsgClass :=
  match (splitTopic topic).drop 2 with
  | ["data", "level"] => some .telemetry
  | ["rfid_check"] => some .rfidCheck
  | ["cmd"] => some .command
  | ["config"] => some .config
  | ["alert"] => some .alert
  | ["status"] => some .status
  | _ => none

/-! ### Backend MQTT client (`backend/src/mqttClient.js`) -/

/-- `publishCommand`: publish to `smartbin/{binId}/cmd`, QoS 1, not
retained. -/
def publishCommand (binId : String) (command : Json) : OutMsg :=
  { topic := "smartbin/" ++ binId ++ "/cmd",
    payload := .json command, qos := 1, retain := false }

/-- `publishAlert`: publish to `smartbin/{binId}/alert`, QoS 1, not
retained. -/
def publishAlert (binId : String) (alert : Json) : OutMsg :=
  { topic := "smartbin/" ++ binId ++ "/alert",
    payload := .json alert, qos := 1, retain := false }

/-- `publishConfig`: publish `{mode, threshold, ts}` to
`smartbin/{binId}/config`, QoS 1, with the retained flag so the device
gets the config on connect. -/
def publishConfig (binId : String) (bin : Bin) (now : Nat) : OutMsg :=
  { topic := "smartbin/" ++ binId ++ "/config",
    payload := .json (.obj [("mode", .str bin.mode),
                            ("threshold", .num bin.thresholdCm),
                            ("ts", .str (isoTimestamp now))]),
    qos := 1, retain := true }

/-- `handleLevelData`: requires numeric `level` and `cm`, updates the
bin row, and when `level >= 80` additionally appends a `level_update`
log entry and publishes a `full_warning` alert. -/
def handleLevelData (binId : String) (payload : Json) (now : Nat)
    (db : DBState) : DBState × List OutMsg :=
  match payload.getField "level", payload.getField "cm" with
  | some (.num level), some (.num cm) =>
    let db1 := updateBinLevel binId level cm now db
    if 80 ≤ level then
      let db2 := logEvent binId "level_update"
        { levelPercent := some level, distanceCm := some cm,
          message := some "Bin is nearly full!" } now db1
      let alert := Json.obj
        [("type", .str "full_warning"),
         ("level", .num level),
         ("message", .str ("Bin " ++ binId ++ " is " ++ toString level ++ "% full")),
         ("ts", .str (isoTimestamp now))]
      (db2, [publishAlert binId alert])
    else
      (db1, [])
  | _, _ => (db, [])

/-- `handleRFIDCheck`: drops the message unless `uid` is present and
truthy and the bin exists; then resolves the credential with
`getUserByRFID` and either logs success and publishes an open command,
or logs failure and publishes an `unauthorized_access` alert. -/
def handleRFIDCheck (binId : String) (payload : Json) (now : Nat)
    (db : DBState) : DBState × List OutMsg :=
  match payload.getField "uid" with
  | none => (db, [])
  | some uidVal =>
    if uidVal.truthy then
      let uid := uidVal.display
      match getBinById binId db with
      | none => (db, [])
      | some _ =>
        match getUserByRFID uid db with
        | some user =>
          let db1 := logEvent binId "rfid_scan"
            { rfidUid := some uid, userName := some user.name,
              message := some ("Access granted for " ++ user.name) } now db
          let command := Json.obj
            [("action", .str "open"),
             ("reason", .str "rfid_authorized"),
             ("user", .str user.name),
             ("ts", .str (isoTimestamp now))]
          (db1, [publishCommand binId command])
        | none =>
          let db1 := logEvent binId "rfid_scan"
            { rfidUid := some uid, success := false,
              message := some "Access denied: Unknown RFID" } now db
          let alert := Json.obj
            [("type", .str "unauthorized_access"),
             ("uid", .str uid),
             ("message", .str ("Unauthorized RFID attempt: " ++ uid)),
             ("ts", .str (isoTimestamp now))]
          (db1, [publishAlert binId alert])
    else (db, [])

/-- `handleStatusUpdate`: compares the raw payload with the literal
`online`, updates the bin's online flag and last-seen timestamp, and
appends an `alert` log entry recording the transition. -/
def handleStatusUpdate (binId status : String) (now : Nat)
    (db : DBState) : DBState × List OutMsg :=
  let isOnline := status = "online"
  let db1 := updateBinStatus binId isOnline now db
  let db2 := logEvent binId "alert"
    { success := isOnline,
      message := some ("Device " ++
        (if isOnline then "connected" else "disconnected")) } now db1
  (db2, [])

/-- `handleMessage`: splits the topic, drops topics with fewer than
three segments, parses the payload as JSON — dropping the message when
parsing throws — and then routes by the third topic segment. -/
def handleMessage (topic message : String) (now : Nat)
    (db : DBState) : DBState × List OutMsg :=
  let parts := splitTopic topic
  if parts.length < 3 then (db, [])
  else
    let binId := (parts.get? 1).getD ""
    match tryParseJson message with
    | none => (db, [])
    | some payload =>
      match parts.get? 2 with
      | some "data" =>
        if parts.get? 3 = some "level" then handleLevelData binId payload now db
        else (db, [])
      | some "rfid_check" => handleRFIDCheck binId payload now db
      | some "status" => handleStatusUpdate binId message now db
      | _ => (db, [])

/-! ### Configuration route (`PUT /api/bins/:id/config` in
`backend/src/routes.js`) -/

/-- The request body fields the route destructures; `none` models an
absent (`undefined`) property. -/
structure ConfigBody where
  mode : Option String := none
  threshold_cm : Option Int := none
  capacity_cm : Option Int := none
  name : Option String := none
  location : Option String := none
deriving Repr, DecidableEq

/-- JavaScript truthiness of an optional string (absent and `""` are
falsy). -/
def strTruthy : Option String → Bool
  | some s => s ≠ ""
  | none => false

/-- The `updates` object the route builds: `if (mode) updates.mode =
mode; if (threshold_cm !== undefined) ...` — property insertion order
follows the source. -/
def buildUpdates (body : ConfigBody) : List (String × ConfigVal) :=
  (match body.mode with
    | some m => if m ≠ "" then [("mode", ConfigVal.s m)] else []
    | none => []) ++
  (match body.threshold_cm with
    | some t => [("threshold_cm", ConfigVal.i t)]
    | none => []) ++
  (match body.capacity_cm with
    | some c => [("capacity_cm", ConfigVal.i c)]
    | none => []) ++
  (match body.name with
    | some n => if n ≠ "" then [("name", ConfigVal.s n)] else []
    | none => []) ++
  (match body.location with
    | some l => if l ≠ "" then [("location", ConfigVal.s l)] else []
    | none => [])

/-- The route handler: 404 when the bin does not exist, 400 on a truthy
mode outside {AUTO, AUTH}, 500 when `updateBinConfig` throws (caught by
the route's try/catch before any publish), otherwise persist, publish
the retained config message, and append a `config_change` log entry.
Result: (store state, publishes, HTTP status). -/
def configRoute (binId : String) (body : ConfigBody) (now : Nat)
    (db : DBState) : DBState × List OutMsg × Nat :=
  match getBinById binId db with
  | none => (db, [], 404)
  | some _ =>
    if strTruthy body.mode ∧ body.mode ≠ some "AUTO" ∧ body.mode ≠ some "AUTH" then
      (db, [], 400)
    else
      match updateBinConfig binId (buildUpdates body) now db with
      | .error _ => (db, [], 500)
      | .ok db1 =>
        match getBinById binId db1 with
        | none => (db1, [], 500)
        | some updatedBin =>
          let msg := publishConfig binId updatedBin now
          let db2 := logEvent binId "config_change"
            { message := some "Configuration updated" } now db1
          (db2, [msg], 200)

end SmartBin

namespace SmartBin.Device

/-! ### Device firmware (`esp32/smart_bin_firmware.ino`) -/

/-- `BIN_ID` constant of the firmware. -/
def BIN_ID : String := "BIN_01"

/-- Total bin height in cm (`BIN_HEIGHT_CM`). -/
def BIN_HEIGHT_CM : Int := 30

/-- Proximity debounce window in ms (`PROXIMITY_DEBOUNCE_MS`). -/
def PROXIMITY_DEBOUNCE_MS : Nat := 2000

/-- Lid auto-close timeout in ms (`LID_AUTO_CLOSE_MS`). -/
def LID_AUTO_CLOSE_MS : Nat := 7000

/-- Arduino `constrain(amt, low, high)`. -/
def constrain (amt low high : Int) : Int :=
  if amt < low then low else if amt > high then high else amt

/-- The firmware's mutable state variables. Time (`millis()`) is passed
explicitly; under a monotonic clock `now` never precedes the stored
timestamps, so ℕ subtraction models the unsigned subtraction. -/
structure DeviceState where
  mode : String
  proximityThreshold : Int
  isLidOpen : Bool
  lidOpenTime : Nat
  lastProximityCheck : Nat
deriving Repr, DecidableEq

/-- Initial values of the firmware globals: `BIN_MODE = "AUTO"`,
`PROXIMITY_THRESHOLD_CM = 50`, lid closed, timers at 0. -/
def initialState : DeviceState :=
  { mode := "AUTO", proximityThreshold := 50, isLidOpen := false,
    lidOpenTime := 0, lastProximityCheck := 0 }

/-- `openLid`: no-op when already open, otherwise drive the servo open
and record the opening time. -/
def openLid (st : DeviceState) (now : Nat) : DeviceState :=
  if st.isLidOpen then st
  else { st with isLidOpen := true, lidOpenTime := now }

/-- `closeLid`: drive the servo closed. -/
def closeLid (st : DeviceState) : DeviceState :=
  { st with isLidOpen := false }

/-- `checkProximity`: return unless the debounce window has elapsed
since the last honored trigger; then open the lid and restart the
debounce window only for a reading with `0 < distance ≤ threshold`. -/
def checkProximity (st : DeviceState) (distance : Int) (now : Nat) :
    DeviceState :=
  if now - st.lastProximityCheck < PROXIMITY_DEBOUNCE_MS then st
  else if 0 < distance ∧ distance ≤ st.proximityThreshold then
    { openLid st now with lastProximityCheck := now }
  else st

/-- The proximity phase of `loop()`: `checkProximity` runs only in AUTO
mode with the lid closed. -/
def loopProximityStep (st : DeviceState) (distance : Int) (now : Nat) :
    DeviceState :=
  if st.mode = "AUTO" ∧ ¬ st.isLidOpen then checkProximity st distance now
  else st

/-- An inbound config message as read by the firmware (`containsKey`
modelled by `Option`). -/
structure DeviceConfigMsg where
  mode : Option String := none
  threshold : Option Int := none
deriving Repr, DecidableEq

/-- `handleConfig`: a supplied mode is applied only when it is `AUTO`
or `AUTH` (otherwise the previous mode is kept); a supplied threshold
is applied unconditionally. -/
def handleConfig (st : DeviceState) (cfg : DeviceConfigMsg) : DeviceState :=
  let st1 :=
    match cfg.mode with
    | some newMode =>
      if newMode = "AUTO" ∨ newMode = "AUTH" then { st with mode := newMode }
      else st
    | none => st
  match cfg.threshold with
  | some t => { st1 with proximityThreshold := t }
  | none => st1

/-- `publishLevelData`: discard readings with `distance ≤ 0` or
`distance > BIN_HEIGHT_CM`; otherwise compute the level percentage with
C++ truncating integer division, clamp it with `constrain`, and publish
a non-retained telemetry message (PubSubClient publishes at QoS 0). -/
def publishLevelData (distanceCm : Int) (ts : String) : Option OutMsg :=
  if distanceCm ≤ 0 ∨ distanceCm > BIN_HEIGHT_CM then none
  else
    let levelPercent := ((BIN_HEIGHT_CM - distanceCm) * 100).tdiv BIN_HEIGHT_CM
    let levelPercent := constrain levelPercent 0 100
    some { topic := "smartbin/" ++ BIN_ID ++ "/data/level",
           payload := .json (.obj [("level", .num levelPercent),
                                   ("cm", .num distanceCm),
                                   ("ts", .str ts)]),
           qos := 0, retain := false }

/-- The `online` presence beacon published in `reconnectMQTT`:
`mqttClient.publish(TOPIC_STATUS, "online", true)` — RETAINED. -/
def onlineStatusMsg : OutMsg :=
  { topic := "smartbin/" ++ BIN_ID ++ "/status",
    payload := .raw "online", qos := 0, retain := true }

/-- The last-will registration of `reconnectMQTT`: topic status, QoS 1,
`willRetain = false`, payload `offline`. -/
def lwtOfflineMsg : OutMsg :=
  { topic := "smartbin/" ++ BIN_ID ++ "/status",
    payload := .raw "offline", qos := 1, retain := false }

/-- The RFID check request published by `checkRFID`: not retained. -/
def rfidCheckMsg (uid ts : String) : OutMsg :=
  { topic := "smartbin/" ++ BIN_ID ++ "/rfid_check",
    payload := .json (.obj [("uid", .str uid), ("ts", .str ts)]),
    qos := 0, retain := false }

end SmartBin.Device

namespace SmartBin

/-! ### Specification-side definition (for the refinement comparison of
claim C5 only) -/

/-- Modelled from the spec's words, for comparison with the firmware's
`publishLevelData`: percentage `round((capacity-d)/capacity*100)`
clamped to `[0,100]`. -/
def specLevelPercent (capacity d : Int) : Int :=
  max 0 (min 100 (round ((((capacity : ℚ) - (d : ℚ)) / (capacity : ℚ)) * 100)))

/-- The `level` field of a published payload, when structured. -/
def levelField (m : OutMsg) : Option Int :=
  match m.payload with
  | .json j =>
    match j.getField "level" with
    | some (.num n) => some n
    | _ => none
  | .raw _ => none

/-! ### Sample store contents, from the seed rows of `schema.sql` -/

/-- The seeded bin `BIN_01`. -/
def sampleBin : Bin :=
  { binId := "BIN_01", name := "Main Entrance Bin",
    location := "Building A - Floor 1", capacityCm := 200, mode := "AUTO",
    thresholdCm := 50, isOnline := false, lastSeen := none,
    currentLevelPercent := 0, currentDistanceCm := 0, updatedAt := 0 }

/-- The seeded active credential of John Doe. -/
def sampleUser : User :=
  { rfidUid := "A1B2C3D4", name := "John Doe", role := "user",
    isActive := true }

/-- A store holding the seeded bin and credential and no logs. -/
def sampleDB : DBState :=
  { bins := [sampleBin], users := [sampleUser], logs := [] }

/-! ### Store access lemmas -/

/-- A keyed row update commutes with the keyed row lookup. -/
theorem find_update_list (id : String) (f : Bin → Bin)
    (hf : ∀ b, (f b).binId = b.binId) :
    ∀ bins : List Bin,
      (bins.map (fun b => if b.binId = id then f b else b)).find?
          (fun b => b.binId = id)
        = (bins.find? (fun b => b.binId = id)).map f := by
  intro bins
  induction bins with
  | nil => rfl
  | cons hd tl ih =>
    by_cases h : hd.binId = id
    · simp [List.find?, h, hf]
    · simp [List.find?, h, ih]

/-- `getBinById` after `updateBinLevel`. -/
theorem getBinById_updateBinLevel (binId : String) (l c : Int) (now : Nat)
    (db : DBState) :
    getBinById binId (updateBinLevel binId l c now db)
      = (getBinById binId db).map (fun b =>
          { b with currentLevelPercent := l, currentDistanceCm := c,
                   lastSeen := some now }) := by
  exact find_update_list binId
    (fun b => { b with currentLevelPercent := l, currentDistanceCm := c,
                       lastSeen := some now }) (fun b => rfl) db.bins

/-- `getBinById` after `updateBinStatus`. -/
theorem getBinById_updateBinStatus (binId : String) (o : Bool) (now : Nat)
    (db : DBState) :
    getBinById binId (updateBinStatus binId o now db)
      = (getBinById binId db).map (fun b =>
          { b with isOnline := o, lastSeen := some now }) := by
  exact find_update_list binId
    (fun b => { b with isOnline := o, lastSeen := some now })
    (fun b => rfl) db.bins

/-! ### Claim theorems -/

/-- C1: the spec states that a presence message with the literal
payload `online` or `offline` updates the bin's online flag and
last-seen timestamp and appends one log entry.  The backend instead
JSON-parses every payload before routing, and the bare presence tokens
are not valid JSON, so both presence payloads are dropped with no store
change and no publish — `handleStatusUpdate` is unreachable for them.
This theorem evaluates the code at the failing inputs. -/
theorem C1_status_tokens_dropped (db : DBState) (now : Nat) :
    handleMessage "smartbin/BIN_01/status" "online" now db = (db, []) ∧
    handleMessage "smartbin/BIN_01/status" "offline" now db = (db, []) :=
  ⟨rfl, rfl⟩

/-- C2 counterexample: a telemetry reading of 150% on the seeded store
is persisted as-is by `handleLevelData`, leaving the stored fill
percentage outside `[0,100]`. -/
theorem C2_counterexample :
    ∃ b, getBinById "BIN_01"
        (handleLevelData "BIN_01"
          (Json.obj [("level", Json.num 150), ("cm", Json.num 10),
                     ("ts", Json.str "t")]) 5 sampleDB).1 = some b ∧
      b.currentLevelPercent = 150 ∧ ¬ b.currentLevelPercent ≤ 100 := by
  refine ⟨_, rfl, rfl, by decide⟩

/-- The bin row after `handleLevelData` on a numeric payload: exactly
the telemetry fields are overwritten. -/
theorem getBinById_handleLevelData (binId : String) (payload : Json)
    (l c : Int) (now : Nat) (db : DBState) (b : Bin)
    (hl : payload.getField "level" = some (.num l))
    (hc : payload.getField "cm" = some (.num c))
    (hb : getBinById binId db = some b) :
    getBinById binId (handleLevelData binId payload now db).1
      = some { b with currentLevelPercent := l, currentDistanceCm := c,
                      lastSeen := some now } := by
  have h2 : getBinById binId (handleLevelData binId payload now db).1
      = getBinById binId (updateBinLevel binId l c now db) := by
    unfold handleLevelData
    rw [hl, hc]
    dsimp only
    split <;> rfl
  rw [h2, getBinById_updateBinLevel, hb]
  rfl

/-- C2 (amended): the backend checks only that `level` and `cm` are
numeric and persists the value unchanged, so the stored fill percentage
remains in `[0,100]` exactly when the incoming reading already is. -/
theorem C2_level_range_conditional (binId : String) (payload : Json)
    (l c : Int) (now : Nat) (db : DBState) (b : Bin)
    (hl : payload.getField "level" = some (.num l))
    (hc : payload.getField "cm" = some (.num c))
    (h0 : 0 ≤ l) (h1 : l ≤ 100)
    (hb : getBinById binId db = some b) :
    ∃ b', getBinById binId (handleLevelData binId payload now db).1 = some b' ∧
      0 ≤ b'.currentLevelPercent ∧ b'.currentLevelPercent ≤ 100 :=
  ⟨_, getBinById_handleLevelData binId payload l c now db b hl hc hb, h0, h1⟩

/-- Witness for C2's amended theorem at the seeded store with the
reading `{level: 45, cm: 110}`. -/
theorem C2_witness :
    ∃ b', getBinById "BIN_01"
        (handleLevelData "BIN_01"
          (Json.obj [("level", Json.num 45), ("cm", Json.num 110),
                     ("ts", Json.str "t")]) 5 sampleDB).1 = some b' ∧
      0 ≤ b'.currentLevelPercent ∧ b'.currentLevelPercent ≤ 100 :=
  C2_level_range_conditional "BIN_01" _ 45 110 5 sampleDB sampleBin
    rfl rfl (by decide) (by decide) rfl

/-- C10: an `rfid_check` payload with no `uid` field, or with an empty
`uid`, is dropped by `handleRFIDCheck` with no store change and no
publish. -/
theorem C10_missing_uid_dropped (binId : String) (payload : Json)
    (now : Nat) (db : DBState)
    (h : payload.getField "uid" = none ∨
         payload.getField "uid" = some (.str "")) :
    handleRFIDCheck binId payload now db = (db, []) := by
  unfold handleRFIDCheck
  rcases h with h | h <;> rw [h]
  rfl

/-- Witness for C10 at a concrete empty-uid payload and the seeded
store. -/
theorem C10_witness :
    handleRFIDCheck "BIN_01" (Json.obj [("uid", Json.str "")]) 5 sampleDB
      = (sampleDB, []) :=
  C10_missing_uid_dropped "BIN_01" _ 5 sampleDB (Or.inr rfl)

/-- C3: for an `rfid_check` with a scanned (nonempty) uid on an
existing bin, an active matching credential yields exactly one open
command naming the resolved holder and one success log entry (and no
alert); when no active credential matches — absent or inactive — the
handler yields exactly one `unauthorized_access` alert carrying the raw
uid and one failure log entry (and no command). -/
theorem C3_rfid_authorization_decision (binId uid : String) (payload : Json)
    (now : Nat) (db : DBState) (bin : Bin)
    (hu : payload.getField "uid" = some (.str uid)) (hne : uid ≠ "")
    (hb : getBinById binId db = some bin) :
    (∀ user, getUserByRFID uid db = some user →
      user ∈ db.users ∧ user.rfidUid = uid ∧ user.isActive = true ∧
      (handleRFIDCheck binId payload now db).2
        = [publishCommand binId (Json.obj
            [("action", .str "open"), ("reason", .str "rfid_authorized"),
             ("user", .str user.name), ("ts", .str (isoTimestamp now))])] ∧
      (handleRFIDCheck binId payload now db).1.logs = db.logs ++
        [{ binId := binId, eventType := "rfid_scan", rfidUid := some uid,
           userName := some user.name, levelPercent := none,
           distanceCm := none, success := true,
           message := some ("Access granted for " ++ user.name),
           timestamp := now }]) ∧
    ((∀ u ∈ db.users, ¬ (u.rfidUid = uid ∧ u.isActive)) →
      getUserByRFID uid db = none ∧
      (handleRFIDCheck binId payload now db).2
        = [publishAlert binId (Json.obj
            [("type", .str "unauthorized_access"), ("uid", .str uid),
             ("message", .str ("Unauthorized RFID attempt: " ++ uid)),
             ("ts", .str (isoTimestamp now))])] ∧
      (handleRFIDCheck binId payload now db).1.logs = db.logs ++
        [{ binId := binId, eventType := "rfid_scan", rfidUid := some uid,
           userName := none, levelPercent := none, distanceCm := none,
           success := false, message := some "Access denied: Unknown RFID",
           timestamp := now }]) := by
  have htr : (Json.str uid).truthy = true := by
    simp [Json.truthy, hne]
  constructor
  · intro user hfind
    have hmem : user ∈ db.users := List.mem_of_find?_eq_some hfind
    have hpred := List.find?_some hfind
    simp only [decide_eq_true_eq] at hpred
    refine ⟨hmem, hpred.1, by simp [hpred.2], ?_, ?_⟩ <;>
      (unfold handleRFIDCheck; rw [hu]; dsimp only; rw [if_pos htr];
       rw [hb]; dsimp only [Json.display]; rw [hfind]; try rfl)
  · intro hnone
    have hfind : getUserByRFID uid db = none := by
      unfold getUserByRFID
      rw [List.find?_eq_none]
      intro u hu'
      simpa using hnone u hu'
    refine ⟨hfind, ?_, ?_⟩ <;>
      (unfold handleRFIDCheck; rw [hu]; dsimp only; rw [if_pos htr];
       rw [hb]; dsimp only [Json.display]; rw [hfind]; try rfl)

/-- Witness for C3: the seeded active credential `A1B2C3D4` yields the
open command for John Doe; the unknown uid `DEADBEEF` yields the
unauthorized alert. -/
theorem C3_witness :
    (handleRFIDCheck "BIN_01" (Json.obj [("uid", Json.str "A1B2C3D4")])
        5 sampleDB).2
      = [publishCommand "BIN_01" (Json.obj
          [("action", .str "open"), ("reason", .str "rfid_authorized"),
           ("user", .str "John Doe"), ("ts", .str (isoTimestamp 5))])] ∧
    (handleRFIDCheck "BIN_01" (Json.obj [("uid", Json.str "DEADBEEF")])
        5 sampleDB).2
      = [publishAlert "BIN_01" (Json.obj
          [("type", .str "unauthorized_access"), ("uid", .str "DEADBEEF"),
           ("message", .str ("Unauthorized RFID attempt: " ++ "DEADBEEF")),
           ("ts", .str (isoTimestamp 5))])] := by
  constructor
  · exact ((C3_rfid_authorization_decision "BIN_01" "A1B2C3D4"
      (Json.obj [("uid", Json.str "A1B2C3D4")]) 5 sampleDB
      sampleBin rfl (by decide) rfl).1 sampleUser rfl).2.2.2.1
  · exact ((C3_rfid_authorization_decision "BIN_01" "DEADBEEF"
      (Json.obj [("uid", Json.str "DEADBEEF")]) 5 sampleDB
      sampleBin rfl (by decide) rfl).2 (by decide)).2.1

/-- C4: a telemetry message with numeric `level` and `cm` always
overwrites the bin's stored percentage, distance and last-seen; exactly
when `level ≥ 80` it additionally appends exactly one log entry and
publishes exactly one full-bin alert, and below 80 it appends and
publishes nothing. -/
theorem C4_telemetry_update_and_alert (binId : String) (payload : Json)
    (l c : Int) (now : Nat) (db : DBState) (b : Bin)
    (hl : payload.getField "level" = some (.num l))
    (hc : payload.getField "cm" = some (.num c))
    (hb : getBinById binId db = some b) :
    (getBinById binId (handleLevelData binId payload now db).1
      = some { b with currentLevelPercent := l, currentDistanceCm := c,
                      lastSeen := some now }) ∧
    (80 ≤ l →
      (handleLevelData binId payload now db).1.logs = db.logs ++
        [{ binId := binId, eventType := "level_update", rfidUid := none,
           userName := none, levelPercent := some l, distanceCm := some c,
           success := true, message := some "Bin is nearly full!",
           timestamp := now }] ∧
      (handleLevelData binId payload now db).2
        = [publishAlert binId (Json.obj
            [("type", .str "full_warning"), ("level", .num l),
             ("message", .str ("Bin " ++ binId ++ " is " ++ toString l
                ++ "% full")),
             ("ts", .str (isoTimestamp now))])]) ∧
    (l < 80 →
      (handleLevelData binId payload now db).1.logs = db.logs ∧
      (handleLevelData binId payload now db).2 = []) := by
  refine ⟨getBinById_handleLevelData binId payload l c now db b hl hc hb,
    ?_, ?_⟩
  · intro h80
    constructor <;>
      (unfold handleLevelData; rw [hl, hc]; dsimp only; rw [if_pos h80];
       try rfl)
  · intro hlt
    have h80 : ¬ 80 ≤ l := by omega
    constructor <;>
      (unfold handleLevelData; rw [hl, hc]; dsimp only; rw [if_neg h80];
       try rfl)

/-- Witness for C4: the scenario readings on the seeded store — 85%
produces the alert, 45% produces none. -/
theorem C4_witness :
    getBinById "BIN_01" (handleLevelData "BIN_01"
        (Json.obj [("level", Json.num 85), ("cm", Json.num 30),
                   ("ts", Json.str "t")]) 5 sampleDB).1
      = some { sampleBin with
                 currentLevelPercent := 85
                 currentDistanceCm := 30
                 lastSeen := some 5 } ∧
    (handleLevelData "BIN_01"
        (Json.obj [("level", Json.num 85), ("cm", Json.num 30),
                   ("ts", Json.str "t")]) 5 sampleDB).2
      = [publishAlert "BIN_01" (Json.obj
          [("type", .str "full_warning"), ("level", .num 85),
           ("message", .str ("Bin " ++ "BIN_01" ++ " is " ++ toString (85 : Int)
              ++ "% full")),
           ("ts", .str (isoTimestamp 5))])] ∧
    (handleLevelData "BIN_01"
        (Json.obj [("level", Json.num 45), ("cm", Json.num 110),
                   ("ts", Json.str "t")]) 5 sampleDB).2 = [] := by
  refine ⟨(C4_telemetry_update_and_alert "BIN_01"
      (Json.obj [("level", Json.num 85), ("cm", Json.num 30),
                 ("ts", Json.str "t")]) 85 30 5 sampleDB sampleBin
      rfl rfl rfl).1,
    ((C4_telemetry_update_and_alert "BIN_01"
      (Json.obj [("level", Json.num 85), ("cm", Json.num 30),
                 ("ts", Json.str "t")]) 85 30 5 sampleDB sampleBin
      rfl rfl rfl).2.1 (by decide)).2,
    ((C4_telemetry_update_and_alert "BIN_01"
      (Json.obj [("level", Json.num 45), ("cm", Json.num 110),
                 ("ts", Json.str "t")]) 45 110 5 sampleDB sampleBin
      rfl rfl rfl).2.2 (by decide)).2⟩

/-- C5 counterexample: the firmware converts with truncating integer
division, not rounding — at raw distance 1 cm it publishes level 96
while the claimed formula gives 97 — and a raw distance of 0, although
inside the claimed domain `[0, capacity]`, is discarded unpublished. -/
theorem C5_truncation_counterexample :
    (Device.publishLevelData 1 "t").map levelField = some (some 96) ∧
    specLevelPercent Device.BIN_HEIGHT_CM 1 = 97 ∧
    (96 : Int) ≠ 97 ∧
    Device.publishLevelData 0 "t" = none ∧
    specLevelPercent Device.BIN_HEIGHT_CM 0 = 100 := by
  refine ⟨rfl, ?_, by decide, rfl, ?_⟩
  · norm_num [specLevelPercent, Device.BIN_HEIGHT_CM, round_eq]
  · norm_num [specLevelPercent, Device.BIN_HEIGHT_CM, round_eq]

/-- C5 (amended): for every raw distance in `(0, capacity]` the device
publishes the percentage `(capacity-d)*100/capacity` computed with
truncating integer division and clamped by `constrain`, and the
published value always lies in `[0,100]`; the conversion is a pure
function of `d` (deterministic by construction). -/
theorem C5_conversion_truncated_clamped (d : Int) (ts : String)
    (h0 : 0 < d) (h1 : d ≤ Device.BIN_HEIGHT_CM) :
    ∃ m, Device.publishLevelData d ts = some m ∧
      levelField m = some (Device.constrain
        (((Device.BIN_HEIGHT_CM - d) * 100).tdiv Device.BIN_HEIGHT_CM) 0 100) ∧
      ∀ n, levelField m = some n → 0 ≤ n ∧ n ≤ 100 := by
  have hno : ¬ (d ≤ 0 ∨ d > Device.BIN_HEIGHT_CM) := by
    simp only [Device.BIN_HEIGHT_CM] at h1 ⊢
    omega
  unfold Device.publishLevelData
  rw [if_neg hno]
  refine ⟨_, rfl, rfl, ?_⟩
  intro n hn
  have hn' : Device.constrain
      (((Device.BIN_HEIGHT_CM - d) * 100).tdiv Device.BIN_HEIGHT_CM) 0 100
        = n := by
    simpa [levelField, Json.getField] using hn
  rw [← hn']
  unfold Device.constrain
  split_ifs <;> omega

/-- Witness for C5's amended theorem at raw distance 5 cm. -/
theorem C5_witness :
    ∃ m, Device.publishLevelData 5 "t" = some m ∧
      levelField m = some (Device.constrain
        (((Device.BIN_HEIGHT_CM - 5) * 100).tdiv Device.BIN_HEIGHT_CM) 0 100) ∧
      ∀ n, levelField m = some n → 0 ≤ n ∧ n ≤ 100 :=
  C5_conversion_truncated_clamped 5 "t" (by decide) (by decide)

/-- C7 counterexample: the firmware's `online` presence beacon in
`reconnectMQTT` is published with the retained flag set, although its
class is `status`, not `config` — so config messages are not the only
retained class. -/
theorem C7_retained_status_counterexample :
    Device.onlineStatusMsg.retain = true ∧
    topicClass Device.onlineStatusMsg.topic = some MsgClass.status ∧
    MsgClass.status ≠ MsgClass.config :=
  ⟨rfl, rfl, by decide⟩

/-- C7 (amended): across every publish site of the system, the retained
flag is set exactly on config publishes and on the device's `online`
presence beacon; commands, alerts, telemetry, RFID checks and the
last-will registration are all unretained. -/
theorem C7_retain_flags :
    (∀ binId c, (publishCommand binId c).retain = false) ∧
    (∀ binId a, (publishAlert binId a).retain = false) ∧
    (∀ binId b now, (publishConfig binId b now).retain = true) ∧
    (∀ d ts m, Device.publishLevelData d ts = some m → m.retain = false) ∧
    (∀ uid ts, (Device.rfidCheckMsg uid ts).retain = false) ∧
    Device.lwtOfflineMsg.retain = false ∧
    Device.onlineStatusMsg.retain = true := by
  refine ⟨fun _ _ => rfl, fun _ _ => rfl, fun _ _ _ => rfl, ?_,
          fun _ _ => rfl, rfl, rfl⟩
  intro d ts m hm
  unfold Device.publishLevelData at hm
  split_ifs at hm <;> cases hm <;> rfl

/-- Witness for C7's amended theorem at concrete publishes. -/
theorem C7_witness :
    (publishCommand "BIN_01" Json.null).retain = false ∧
    ∃ m, Device.publishLevelData 10 "t" = some m ∧ m.retain = false :=
  ⟨C7_retain_flags.1 "BIN_01" Json.null,
   ⟨_, rfl, C7_retain_flags.2.2.2.1 10 "t" _ rfl⟩⟩

/-- C8 counterexample: in AUTO mode with the lid closed and the
debounce window elapsed, a reading of distance 0 — which is at or below
the threshold 50 — causes no CLOSED → OPEN transition, because the code
additionally requires a strictly positive distance. -/
theorem C8_zero_distance_counterexample :
    Device.initialState.mode = "AUTO" ∧
    Device.initialState.isLidOpen = false ∧
    Device.PROXIMITY_DEBOUNCE_MS ≤ 2000 - Device.initialState.lastProximityCheck ∧
    (0 : Int) ≤ Device.initialState.proximityThreshold ∧
    (Device.loopProximityStep Device.initialState 0 2000).isLidOpen = false :=
  ⟨rfl, rfl, by decide, by decide, rfl⟩

/-- C8 (amended): a proximity reading within the debounce window of the
last honored trigger changes nothing at all, regardless of its value;
once the window has elapsed, a reading with strictly positive distance
at or below the threshold, in AUTO mode with the lid closed, opens the
lid and restarts the debounce window. -/
theorem C8_debounce (st : Device.DeviceState) (distance : Int) (now : Nat) :
    (now - st.lastProximityCheck < Device.PROXIMITY_DEBOUNCE_MS →
      Device.loopProximityStep st distance now = st) ∧
    (Device.PROXIMITY_DEBOUNCE_MS ≤ now - st.lastProximityCheck →
      0 < distance → distance ≤ st.proximityThreshold →
      st.mode = "AUTO" → st.isLidOpen = false →
      (Device.loopProximityStep st distance now).isLidOpen = true ∧
      (Device.loopProximityStep st distance now).lastProximityCheck = now) := by
  constructor
  · intro hdeb
    unfold Device.loopProximityStep Device.checkProximity
    split_ifs <;> rfl
  · intro hdeb hpos hthr hmode hopen
    unfold Device.loopProximityStep Device.checkProximity Device.openLid
    have hA : st.mode = "AUTO" ∧ ¬ st.isLidOpen = true := by
      simp [hmode, hopen]
    rw [if_pos hA, if_neg (by omega), if_pos ⟨hpos, hthr⟩]
    simp [hopen]

/-- Witness for C8: at the initial state, a trigger at 1000 ms is
ignored; one at 2500 ms with distance 10 opens the lid. -/
theorem C8_witness :
    Device.loopProximityStep Device.initialState 10 1000
      = Device.initialState ∧
    (Device.loopProximityStep Device.initialState 10 2500).isLidOpen = true ∧
    (Device.loopProximityStep Device.initialState 10 2500).lastProximityCheck
      = 2500 := by
  refine ⟨(C8_debounce Device.initialState 10 1000).1 (by decide), ?_, ?_⟩
  · exact ((C8_debounce Device.initialState 10 2500).2 (by decide) (by decide)
      (by decide) rfl rfl).1
  · exact ((C8_debounce Device.initialState 10 2500).2 (by decide) (by decide)
      (by decide) rfl rfl).2

/-- One `SET` clause never touches the non-configuration columns of a
bin row. -/
theorem applyUpdate_keeps (b : Bin) (kv : String × ConfigVal) :
    (applyUpdate b kv).binId = b.binId ∧
    (applyUpdate b kv).isOnline = b.isOnline ∧
    (applyUpdate b kv).lastSeen = b.lastSeen ∧
    (applyUpdate b kv).currentLevelPercent = b.currentLevelPercent ∧
    (applyUpdate b kv).currentDistanceCm = b.currentDistanceCm ∧
    (applyUpdate b kv).updatedAt = b.updatedAt := by
  unfold applyUpdate
  split <;> simp

/-- A whole clause list never touches the non-configuration columns. -/
theorem foldl_applyUpdate_keeps (us : List (String × ConfigVal)) :
    ∀ b : Bin,
      ((us.foldl applyUpdate b).binId = b.binId ∧
       (us.foldl applyUpdate b).isOnline = b.isOnline ∧
       (us.foldl applyUpdate b).lastSeen = b.lastSeen ∧
       (us.foldl applyUpdate b).currentLevelPercent = b.currentLevelPercent ∧
       (us.foldl applyUpdate b).currentDistanceCm = b.currentDistanceCm) := by
  induction us with
  | nil => intro b; exact ⟨rfl, rfl, rfl, rfl, rfl⟩
  | cons kv rest ih =>
    intro b
    have h1 := applyUpdate_keeps b kv
    have h2 := ih (applyUpdate b kv)
    simp only [List.foldl_cons]
    exact ⟨h2.1.trans h1.1, h2.2.1.trans h1.2.1, h2.2.2.1.trans h1.2.2.1,
           h2.2.2.2.1.trans h1.2.2.2.1, h2.2.2.2.2.trans h1.2.2.2.2.1⟩

/-- The clause list built by the route applies exactly the supplied
configuration fields, in route order. -/
theorem foldl_applyUpdate_buildUpdates (body : ConfigBody) (b : Bin) :
    (buildUpdates body).foldl applyUpdate b =
      { b with
        mode := (match body.mode with
                 | some m => if m ≠ "" then m else b.mode
                 | none => b.mode),
        thresholdCm := body.threshold_cm.getD b.thresholdCm,
        capacityCm := body.capacity_cm.getD b.capacityCm,
        name := (match body.name with
                 | some s => if s ≠ "" then s else b.name
                 | none => b.name),
        location := (match body.location with
                     | some s => if s ≠ "" then s else b.location
                     | none => b.location) } := by
  rcases body with ⟨m, t, c, n, lo⟩
  cases m <;> cases t <;> cases c <;> cases n <;> cases lo <;>
    simp [buildUpdates, applyUpdate] <;> split_ifs <;>
    simp_all [applyUpdate]

/-- Every clause the route builds has an allow-listed column, so the
store-level allow-list filter keeps all of them. -/
theorem buildUpdates_allowed (body : ConfigBody) :
    (buildUpdates body).filter (fun kv => allowedFields.contains kv.1)
      = buildUpdates body := by
  rcases body with ⟨m, t, c, n, lo⟩
  cases m <;> cases t <;> cases c <;> cases n <;> cases lo <;>
    simp [buildUpdates, allowedFields] <;> split_ifs <;>
    simp [buildUpdates, allowedFields]

/-- C6: a config request supplying none of the allow-listed fields is
rejected before any store mutation or publish; a request supplying
allowed fields (with a valid mode) persists exactly the supplied fields
— every other bin column keeps its value (`updated_at` is refreshed by
the store layer). -/
theorem C6_config_allowlist :
    (∀ (binId : String) (now : Nat) (db : DBState) (body : ConfigBody),
      body.mode = none → body.threshold_cm = none → body.capacity_cm = none →
      body.name = none → body.location = none →
      (configRoute binId body now db).1 = db ∧
      (configRoute binId body now db).2.1 = []) ∧
    (∀ (binId : String) (now : Nat) (db : DBState) (body : ConfigBody)
        (b : Bin),
      getBinById binId db = some b →
      (strTruthy body.mode = true →
        body.mode = some "AUTO" ∨ body.mode = some "AUTH") →
      buildUpdates body ≠ [] →
      ∃ b', getBinById binId (configRoute binId body now db).1 = some b' ∧
        b'.mode = (match body.mode with
                   | some m => if m ≠ "" then m else b.mode
                   | none => b.mode) ∧
        b'.thresholdCm = body.threshold_cm.getD b.thresholdCm ∧
        b'.capacityCm = body.capacity_cm.getD b.capacityCm ∧
        b'.name = (match body.name with
                   | some s => if s ≠ "" then s else b.name
                   | none => b.name) ∧
        b'.location = (match body.location with
                       | some s => if s ≠ "" then s else b.location
                       | none => b.location) ∧
        b'.binId = b.binId ∧ b'.isOnline = b.isOnline ∧
        b'.lastSeen = b.lastSeen ∧
        b'.currentLevelPercent = b.currentLevelPercent ∧
        b'.currentDistanceCm = b.currentDistanceCm ∧
        b'.updatedAt = now) := by
  constructor
  · intro binId now db body h1 h2 h3 h4 h5
    rcases body with ⟨m, t, c, n, lo⟩
    simp only at h1 h2 h3 h4 h5
    subst h1; subst h2; subst h3; subst h4; subst h5
    cases hbin : getBinById binId db with
    | none => simp [configRoute, hbin]
    | some bfound =>
      simp [configRoute, hbin, strTruthy, buildUpdates, updateBinConfig]
  · intro binId now db body b hb hv hne
    have hcond : ¬ (strTruthy body.mode = true ∧ body.mode ≠ some "AUTO" ∧
        body.mode ≠ some "AUTH") := by
      rintro ⟨h1, h2, h3⟩
      rcases hv h1 with h | h
      · exact h2 h
      · exact h3 h
    have hemp : (buildUpdates body).isEmpty = false := by
      simpa [List.isEmpty_iff] using hne
    have hfold := foldl_applyUpdate_buildUpdates body b
    have hkeep := foldl_applyUpdate_keeps (buildUpdates body) b
    have hf : ∀ x : Bin,
        ({ (buildUpdates body).foldl applyUpdate x with
           updatedAt := now } : Bin).binId = x.binId := by
      intro x
      exact (foldl_applyUpdate_keeps (buildUpdates body) x).1
    have hfind1 : getBinById binId
        { db with bins := db.bins.map (fun x =>
            if x.binId = binId then
              { (buildUpdates body).foldl applyUpdate x with
                updatedAt := now }
            else x) }
        = some { (buildUpdates body).foldl applyUpdate b with
                 updatedAt := now } := by
      have := find_update_list binId
        (fun x => { (buildUpdates body).foldl applyUpdate x with
                    updatedAt := now }) hf db.bins
      unfold getBinById at hb ⊢
      rw [this, hb]
      rfl
    refine ⟨{ (buildUpdates body).foldl applyUpdate b with
              updatedAt := now },
      ?_, ?_, ?_, ?_, ?_, ?_, ?_, ?_, ?_, ?_, ?_, rfl⟩
    · unfold configRoute
      rw [hb]
      dsimp only
      rw [if_neg hcond]
      simp only [updateBinConfig, buildUpdates_allowed body, hemp,
        Bool.false_eq_true, if_false]
      rw [hfind1]
      dsimp only
      exact hfind1
    · rw [show ({ (buildUpdates body).foldl applyUpdate b with
            updatedAt := now } : Bin).mode
          = ((buildUpdates body).foldl applyUpdate b).mode from rfl, hfold]
    · rw [show ({ (buildUpdates body).foldl applyUpdate b with
            updatedAt := now } : Bin).thresholdCm
          = ((buildUpdates body).foldl applyUpdate b).thresholdCm from rfl,
        hfold]
    · rw [show ({ (buildUpdates body).foldl applyUpdate b with
            updatedAt := now } : Bin).capacityCm
          = ((buildUpdates body).foldl applyUpdate b).capacityCm from rfl,
        hfold]
    · rw [show ({ (buildUpdates body).foldl applyUpdate b with
            updatedAt := now } : Bin).name
          = ((buildUpdates body).foldl applyUpdate b).name from rfl, hfold]
    · rw [show ({ (buildUpdates body).foldl applyUpdate b with
            updatedAt := now } : Bin).location
          = ((buildUpdates body).foldl applyUpdate b).location from rfl,
        hfold]
    · exact hkeep.1
    · exact hkeep.2.1
    · exact hkeep.2.2.1
    · exact hkeep.2.2.2.1
    · exact hkeep.2.2.2.2

/-- Witness for C6: the empty body is rejected with the seeded store
untouched and nothing published; a body supplying mode `AUTH` and
threshold 60 persists exactly those two fields. -/
theorem C6_witness :
    (configRoute "BIN_01" {} 5 sampleDB).1 = sampleDB ∧
    (configRoute "BIN_01" {} 5 sampleDB).2.1 = [] ∧
    ∃ b', getBinById "BIN_01" (configRoute "BIN_01"
        { mode := some "AUTH", threshold_cm := some 60 } 5 sampleDB).1
        = some b' ∧
      b'.mode = "AUTH" ∧ b'.thresholdCm = 60 ∧
      b'.capacityCm = sampleBin.capacityCm ∧ b'.name = sampleBin.name ∧
      b'.location = sampleBin.location := by
  refine ⟨(C6_config_allowlist.1 "BIN_01" 5 sampleDB {} rfl rfl rfl rfl rfl).1,
    (C6_config_allowlist.1 "BIN_01" 5 sampleDB {} rfl rfl rfl rfl rfl).2, ?_⟩
  obtain ⟨b', h1, h2, h3, h4, h5, h6, rest⟩ :=
    C6_config_allowlist.2 "BIN_01" 5 sampleDB
      { mode := some "AUTH", threshold_cm := some 60 } sampleBin rfl
      (fun _ => Or.inr rfl) (by decide)
  exact ⟨b', h1, h2, h3, h4, h5, h6⟩

/-- C9: the firmware's operating mode invariantly stays in {AUTO,
AUTH}: a config message with a mode outside the set leaves the previous
mode in place, while a threshold supplied in the same message is still
applied. -/
theorem C9_mode_invariant (st : Device.DeviceState)
    (cfg : Device.DeviceConfigMsg)
    (h : st.mode = "AUTO" ∨ st.mode = "AUTH") :
    ((Device.handleConfig st cfg).mode = "AUTO" ∨
     (Device.handleConfig st cfg).mode = "AUTH") ∧
    (∀ m, cfg.mode = some m → ¬ (m = "AUTO" ∨ m = "AUTH") →
      (Device.handleConfig st cfg).mode = st.mode) ∧
    (∀ t, cfg.threshold = some t →
      (Device.handleConfig st cfg).proximityThreshold = t) := by
  unfold Device.handleConfig
  rcases cfg with ⟨cm, ct⟩
  cases cm <;> cases ct <;> simp_all <;> split_ifs <;> simp_all

/-- Witness for C9: the invalid mode `TURBO` is rejected while the
threshold 75 in the same message is applied. -/
theorem C9_witness :
    (Device.handleConfig Device.initialState
        { mode := some "TURBO", threshold := some 75 }).mode
      = Device.initialState.mode ∧
    (Device.handleConfig Device.initialState
        { mode := some "TURBO", threshold := some 75 }).proximityThreshold
      = 75 :=
  ⟨(C9_mode_invariant Device.initialState
      { mode := some "TURBO", threshold := some 75 } (Or.inl rfl)).2.1
      "TURBO" rfl (by decide),
   (C9_mode_invariant Device.initialState
      { mode := some "TURBO", threshold := some 75 } (Or.inl rfl)).2.2
      75 rfl⟩

end SmartBin
